import Mathlib

/-!
Verification development for the receipt extraction-and-confirmation pipeline
(`app/routers/receipts.py`).  The Python source is shallowly embedded: pure
helpers become Lean functions, the HTTP handlers become functions threading an
explicit effect record (file writes, database state), external collaborators
(OCR engine, language model, filesystem, commit outcomes) become oracle
parameters, and Python floats for monetary amounts become exact rationals.
-/

namespace Receipts

/-- Decidable equality for `Except` results, so that concrete runs of the
embedded functions can be checked by `decide`. -/
instance instDecEqExcept {ε α : Type} [DecidableEq ε] [DecidableEq α] :
    DecidableEq (Except ε α)
  | .error e, .error f =>
    if h : e = f then .isTrue (by rw [h])
    else .isFalse (by intro hh; cases hh; exact h rfl)
  | .error _, .ok _ => .isFalse (by intro hh; cases hh)
  | .ok _, .error _ => .isFalse (by intro hh; cases hh)
  | .ok x, .ok y =>
    if h : x = y then .isTrue (by rw [h])
    else .isFalse (by intro hh; cases hh; exact h rfl)

/-! ### Character classes (ASCII fragment of Python's `re` classes) -/

/-- Python `\d` on ASCII input. -/
def pyIsDigit (c : Char) : Bool := '0' ≤ c && c ≤ '9'

/-- ASCII letter. -/
def pyIsAlpha (c : Char) : Bool := ('A' ≤ c && c ≤ 'Z') || ('a' ≤ c && c ≤ 'z')

/-- Python `\s` on ASCII input. -/
def pyIsSpace (c : Char) : Bool :=
  c = ' ' || c = '\t' || c = '\n' || c = '\x0d' || c = '\x0b' || c = '\x0c'

/-- Python `\w` on ASCII input (used for `\b` word boundaries). -/
def pyIsWord (c : Char) : Bool := pyIsAlpha c || pyIsDigit c || c = '_'

/-- The character class `[A-Za-z0-9\-\_ ]` of the description group. -/
def descClassChar (c : Char) : Bool :=
  pyIsAlpha c || pyIsDigit c || c = '-' || c = '_' || c = ' '

/-- The single-character class `[\,\.\s]` separating integer and fractional
amount parts. -/
def sepChar (c : Char) : Bool := c = ',' || c = '.' || pyIsSpace c

/-! ### A backtracking matcher for the receipt line pattern

The pattern-based extractor `_parse_receipt_locally` scans the OCR text with
`re.finditer` for `\b(\d+)\s+([A-Za-z0-9\-\_ ]{3,}?)\s*(\d{1,4})\s*[\,\.\s]\s*(\d{2})\b`.
We implement Python's leftmost-match semantics directly: greedy quantifiers
enumerate candidate splits longest-first, the lazy `{3,}?` shortest-first, and
alternatives are tried in order via `List.findSome?`. -/

/-- Length of the longest prefix of `s` whose characters all satisfy `p`. -/
def leadCount (p : Char → Bool) : List Char → Nat
  | [] => 0
  | c :: cs => if p c then leadCount p cs + 1 else 0

/-- Split `s` after `k` characters. -/
def takeDrop (s : List Char) (k : Nat) : List Char × List Char := (s.take k, s.drop k)

/-- Candidate splits for a greedy quantifier over class `p` with multiplicity
between `lo` and `hi`: longest first, down to `lo`. -/
def greedySplits (p : Char → Bool) (lo hi : Nat) (s : List Char) :
    List (List Char × List Char) :=
  let m := min (leadCount p s) hi
  if lo ≤ m then ((List.range (m + 1 - lo)).map fun i => takeDrop s (m - i)) else []

/-- Candidate splits for a lazy quantifier over class `p` with multiplicity at
least `lo`: shortest first. -/
def lazySplits (p : Char → Bool) (lo : Nat) (s : List Char) :
    List (List Char × List Char) :=
  let m := leadCount p s
  if lo ≤ m then ((List.range (m + 1 - lo)).map fun i => takeDrop s (lo + i)) else []

/-- The four capture groups of a successful match: quantity, raw description,
integer amount part, two-digit fractional amount part. -/
structure RegexGroups where
  g1 : List Char
  g2 : List Char
  g3 : List Char
  g4 : List Char
deriving DecidableEq, Repr

/-- Whether the first character of `s` (if any) is a word character. -/
def headIsWord : List Char → Bool
  | [] => false
  | c :: _ => pyIsWord c

/-- Whether the preceding character (if any) is a word character. -/
def prevIsWord : Option Char → Bool
  | none => false
  | some c => pyIsWord c

/-- Matches `[\,\.\s]\s*(\d{2})\b` at the front of `s`, returning the captured
two digits and the remaining suffix. -/
def matchTail (s : List Char) : Option (List Char × List Char) :=
  match s with
  | [] => none
  | c :: cs =>
    if sepChar c then
      (greedySplits pyIsSpace 0 cs.length cs).findSome? fun pr =>
        match pr.2 with
        | d1 :: d2 :: rest =>
          if pyIsDigit d1 && pyIsDigit d2 && !headIsWord rest then
            some ([d1, d2], rest)
          else none
        | _ => none
    else none

/-- Attempts the full receipt-line pattern anchored at the current position,
given the character just before the position (for the leading `\b`). Returns
the capture groups and the unconsumed suffix. -/
def receiptRegexMatch (prev : Option Char) (s : List Char) :
    Option (RegexGroups × List Char) :=
  if prevIsWord prev == headIsWord s then none
  else
    (greedySplits pyIsDigit 1 s.length s).findSome? fun pr1 =>
    (greedySplits pyIsSpace 1 pr1.2.length pr1.2).findSome? fun pr2 =>
    (lazySplits descClassChar 3 pr2.2).findSome? fun pr3 =>
    (greedySplits pyIsSpace 0 pr3.2.length pr3.2).findSome? fun pr4 =>
    (greedySplits pyIsDigit 1 4 pr4.2).findSome? fun pr5 =>
    (greedySplits pyIsSpace 0 pr5.2.length pr5.2).findSome? fun pr6 =>
    (matchTail pr6.2).map fun pr7 => (⟨pr1.1, pr3.1, pr5.1, pr7.1⟩, pr7.2)

/-- Scanning loop of `re.finditer`: try each start position left to right and
resume after the end of every successful (non-overlapping) match. The fuel is
the remaining text length plus one. -/
def finditerAux (cf : Nat) (prev : Option Char) (s : List Char) : List RegexGroups :=
  match cf with
  | 0 => []
  | cf' + 1 =>
    match receiptRegexMatch prev s with
    | some (g, rest) =>
      if rest.length < s.length then
        g :: finditerAux cf' ((s.take (s.length - rest.length)).getLast?) rest
      else
        match s with
        | [] => []
        | c :: cs => finditerAux cf' (some c) cs
    | none =>
      match s with
      | [] => []
      | c :: cs => finditerAux cf' (some c) cs

/-- All matches of the receipt line pattern in `s`, in order. -/
def receiptFinditer (s : List Char) : List RegexGroups :=
  finditerAux (s.length + 1) none s

/-! ### Whitespace normalization and amount parsing -/

/-- One step of Python's `str.split()` (split on whitespace runs), as a fold. -/
def splitWsStep (c : Char) (acc : List (List Char)) : List (List Char) :=
  if pyIsSpace c then [] :: acc
  else
    match acc with
    | [] => [[c]]
    | w :: ws => (c :: w) :: ws

/-- Python `str.split()` with no arguments: whitespace-delimited words, empty
words dropped. -/
def pySplitWs (s : List Char) : List (List Char) :=
  (s.foldr splitWsStep []).filter (· ≠ [])

/-- `" ".join(raw.strip().split())`: whitespace normalization of the matched
description. -/
def normWs (s : List Char) : String :=
  String.intercalate " " ((pySplitWs s).map fun w => String.mk w)

/-- Value of a string of decimal digits (`int` on a digit-only group). -/
def digitsToNat (s : List Char) : Nat :=
  s.foldl (fun acc c => acc * 10 + (c.toNat - '0'.toNat)) 0

/-- The amount `float(f"{int(g3)}.{int(g4):02d}")` as an exact rational:
`g3` is the integer part, `g4` the two fractional digits, so the value is
`g3 + g4/100` (see `matchAmountQ_eq`), written with `mkRat` so that concrete
runs reduce. -/
def matchAmountQ (g3 g4 : List Char) : ℚ :=
  mkRat (digitsToNat g3 * 100 + digitsToNat g4) 100

/-- The parsed amount is the integer part plus the two-digit fraction. -/
theorem matchAmountQ_eq (g3 g4 : List Char) :
    matchAmountQ g3 g4 = (digitsToNat g3 : ℚ) + (digitsToNat g4 : ℚ) / 100 := by
  rw [matchAmountQ, Rat.mkRat_eq_div]
  push_cast
  ring

/-! ### Candidate expense items (`ReceiptExpenseItem`)

Dates are encoded as `y*10000 + m*100 + d`, so the calendar order is the
numeric order. Amounts are exact rationals. -/

/-- A validated candidate expense item (pydantic model `ReceiptExpenseItem`). -/
structure ReceiptExpenseItem where
  amount : ℚ
  currency : String
  description : String
  category : String
  expense_date : Option Nat
deriving DecidableEq, Repr

/-- `currency` must satisfy `min_length=3, max_length=3, regex="^[A-Z]{3}$"`. -/
def currencyOk (s : String) : Bool :=
  s.length = 3 && s.data.all fun c => 'A' ≤ c && c ≤ 'Z'

/-- The pydantic field constraints of `ReceiptExpenseItem`: `amount` strictly
positive, three-uppercase-letter `currency`, `description` of length 1..255,
`category` of length 1..50, `expense_date` absent or not after `today`
(the `le=date.today()` bound). -/
def validItemFields (today : Nat) (amount : ℚ) (currency description category : String)
    (ed : Option Nat) : Bool :=
  decide (0 < amount) && currencyOk currency
    && (1 ≤ description.length && description.length ≤ 255)
    && (1 ≤ category.length && category.length ≤ 50)
    && (match ed with
        | none => true
        | some d => d ≤ today)

/-- Constructing a `ReceiptExpenseItem(...)` runs pydantic validation; an
invalid field raises (modelled as `Except.error`). -/
def mkReceiptItemChecked (today : Nat) (amount : ℚ)
    (currency description category : String) (ed : Option Nat) :
    Except Unit ReceiptExpenseItem :=
  if validItemFields today amount currency description category ed then
    .ok ⟨amount, currency, description, category, ed⟩
  else .error ()

/-! ### The pattern-based extractor `_parse_receipt_locally` -/

/-- The per-match loop body of `_parse_receipt_locally`: skip matches whose
normalized description is empty or whose amount is non-positive, construct a
candidate for the rest. A pydantic validation failure during construction
(e.g. a description longer than 255 characters) aborts the whole call. -/
def buildLocalItems (today : Nat) : List RegexGroups → Except Unit (List ReceiptExpenseItem)
  | [] => .ok []
  | g :: gs =>
    if normWs g.g2 = "" then buildLocalItems today gs
    else if matchAmountQ g.g3 g.g4 ≤ 0 then buildLocalItems today gs
    else
      match mkReceiptItemChecked today (matchAmountQ g.g3 g.g4) "CAD" (normWs g.g2)
          "OTHER" none with
      | .error e => .error e
      | .ok it =>
        match buildLocalItems today gs with
        | .error e => .error e
        | .ok rest => .ok (it :: rest)

/-- `ocr_text.replace non-breaking spaces (U+00A0) with plain spaces,` as a character map. -/
def nbspReplace (text : String) : List Char :=
  text.data.map fun c => if c = '\u00A0' then ' ' else c

/-- `_parse_receipt_locally`: replace non-breaking spaces, scan for the line
pattern and build one candidate per acceptable match. -/
def parseReceiptLocally (today : Nat) (ocrText : String) :
    Except Unit (List ReceiptExpenseItem) :=
  buildLocalItems today (receiptFinditer (nbspReplace ocrText))

/-! ### JSON values and the structured-model extractor `_parse_receipt_with_llm` -/

/-- The result of `json.loads` on the model's response. -/
inductive JValue where
  | null
  | bool (b : Bool)
  | num (q : ℚ)
  | str (s : String)
  | arr (elems : List JValue)
  | obj (fields : List (String × JValue))

/-- Key lookup in a JSON object (keys of a parsed Python dict are unique). -/
def jGetField (x : JValue) (k : String) : Option JValue :=
  match x with
  | .obj fs => (fs.find? fun p => p.1 == k).map fun p => p.2
  | _ => none

/-- `date.fromisoformat`-style parse of `YYYY-MM-DD`, as the numeric encoding
`y*10000 + m*100 + d`. -/
def pyParseDate (s : String) : Option Nat :=
  match s.splitOn "-" with
  | [ys, ms, ds] =>
    if ys.length = 4 && ms.length = 2 && ds.length = 2
        && ys.all Char.isDigit && ms.all Char.isDigit && ds.all Char.isDigit then
      let m := digitsToNat ms.data
      let d := digitsToNat ds.data
      if 1 ≤ m && m ≤ 12 && 1 ≤ d && d ≤ 31 then
        some (digitsToNat ys.data * 10000 + m * 100 + d)
      else none
    else none
  | _ => none

/-- The `amount` field of a candidate JSON object: a positive JSON number is
required (checked by `validItemFields`). -/
def jAmountField (x : JValue) : Except Unit ℚ :=
  match jGetField x "amount" with
  | some (.num q) => .ok q
  | _ => .error ()

/-- The `currency` field: absent defaults to `"CAD"`, otherwise a string. -/
def jCurrencyField (x : JValue) : Except Unit String :=
  match jGetField x "currency" with
  | none => .ok "CAD"
  | some (.str s) => .ok s
  | _ => .error ()

/-- The `description` field: a string is required. -/
def jDescriptionField (x : JValue) : Except Unit String :=
  match jGetField x "description" with
  | some (.str s) => .ok s
  | _ => .error ()

/-- The `category` field: absent defaults to `"OTHER"`, otherwise a string. -/
def jCategoryField (x : JValue) : Except Unit String :=
  match jGetField x "category" with
  | none => .ok "OTHER"
  | some (.str s) => .ok s
  | _ => .error ()

/-- The `expense_date` field: absent or `null` is `None`, otherwise an
ISO-format date string. -/
def jExpenseDateField (x : JValue) : Except Unit (Option Nat) :=
  match jGetField x "expense_date" with
  | none => .ok none
  | some .null => .ok none
  | some (.str s) =>
    match pyParseDate s with
    | some d => .ok (some d)
    | none => .error ()
  | _ => .error ()

/-- `ReceiptExpenseItem(**x)` on one array element: extract and type-check the
five fields, then run the field-constraint validation. -/
def validateCandidateItem (today : Nat) (x : JValue) : Except Unit ReceiptExpenseItem :=
  match jAmountField x, jCurrencyField x, jDescriptionField x,
      jCategoryField x, jExpenseDateField x with
  | .ok a, .ok c, .ok d, .ok cat, .ok ed => mkReceiptItemChecked today a c d cat ed
  | _, _, _, _, _ => .error ()

/-- The list comprehension `[ReceiptExpenseItem(**x) for x in data]`: the first
invalid element aborts the whole call (no partial acceptance). -/
def validateCandidateItems (today : Nat) : List JValue → Except Unit (List ReceiptExpenseItem)
  | [] => .ok []
  | x :: xs =>
    match validateCandidateItem today x with
    | .error e => .error e
    | .ok it =>
      match validateCandidateItems today xs with
      | .error e => .error e
      | .ok l => .ok (it :: l)

/-- The error outcomes of the response handling in `_parse_receipt_with_llm`. -/
inductive LlmParseError where
  | notJson
  | topLevelObject
  | notArray
  | invalidItem
deriving DecidableEq, Repr

/-- The response handling of `_parse_receipt_with_llm` (after the model call):
`data` is the outcome of `json.loads` on the response text (`none` when the
text is not valid JSON). A `null` document returns the empty list; an object
or any other non-array shape is an error; an array is validated element-wise
with no partial acceptance. -/
def parseLlmOutput (today : Nat) (data : Option JValue) :
    Except LlmParseError (List ReceiptExpenseItem) :=
  match data with
  | none => .error .notJson
  | some .null => .ok []
  | some (.obj _) => .error .topLevelObject
  | some (.arr xs) =>
    match validateCandidateItems today xs with
    | .error _ => .error .invalidItem
    | .ok l => .ok l
  | some _ => .error .notArray

/-! ### The category classifier `_classify_categories`

The external language model is an oracle `llm : List String → Option JValue`
taking the batch of unique descriptions and returning the `json.loads` result
of its response (`none` collapses a failed call, an empty response and
unparsable JSON into one error). The classifier also returns the list of
batches actually sent to the model, so that call count and call contents are
observable. -/

/-- The closed category set accepted from the model. -/
def allowedCategories : List String :=
  ["FOOD", "GROCERIES", "TRANSPORT", "ENTERTAINMENT", "HEALTH", "UTILITIES", "RENT", "OTHER"]

/-- `list(dict.fromkeys(descriptions))`: deduplication preserving first
occurrences. -/
def pyDedup (xs : List String) : List String :=
  xs.foldl (fun acc x => if x ∈ acc then acc else acc ++ [x]) []

/-- The filtering loop over the model's JSON object: keep entries whose value
is a string in the closed category set. -/
def filterAllowed (fs : List (String × JValue)) : List (String × String) :=
  fs.filterMap fun p =>
    match p.2 with
    | .str v => if v ∈ allowedCategories then some (p.1, v) else none
    | _ => none

/-- The error outcomes of `_classify_categories`: a missing `OPENAI_API_KEY`
or missing langchain dependencies surface as HTTP 503, a failed/empty/
unparsable model response as HTTP 502/500, a non-object JSON document as
HTTP 500. -/
inductive ClassifyError where
  | missingApiKey
  | depsMissing
  | badResponse
  | notObject
deriving DecidableEq, Repr

/-- `_classify_categories`: check the API key, short-circuit the empty batch,
deduplicate, check the langchain imports, make one model call and filter its
answer against the closed category set. The second component records every
batch sent to the model. -/
def classifyCategories (apiKey : Option String) (depsOk : Bool)
    (llm : List String → Option JValue) (descriptions : List String) :
    Except ClassifyError (List (String × String)) × List (List String) :=
  match apiKey with
  | none => (.error .missingApiKey, [])
  | some _ =>
    if descriptions = [] then (.ok [], [])
    else
      let unique := pyDedup descriptions
      if !depsOk then (.error .depsMissing, [])
      else
        match llm unique with
        | none => (.error .badResponse, [unique])
        | some (.obj fs) => (.ok (filterAllowed fs), [unique])
        | some _ => (.error .notObject, [unique])

/-- `category_map.get(item.description, "OTHER")` on one description. -/
def lookupCategory (m : List (String × String)) (d : String) : Option String :=
  (m.find? fun p => p.1 == d).map fun p => p.2

/-- The orchestrator loop `item.category = category_map.get(item.description,
"OTHER")` over all extracted items. -/
def applyCategoryMap (m : List (String × String)) (items : List ReceiptExpenseItem) :
    List ReceiptExpenseItem :=
  items.map fun it => { it with category := (lookupCategory m it.description).getD "OTHER" }

/-! ### The image normalizer inside `_ocr_image`

Only the raster geometry (pixel dimensions and channel count) is tracked;
pixel contents are irrelevant to the dimensional claims. -/

/-- A raster: height, width and channel count. -/
structure Raster where
  height : Nat
  width : Nat
  channels : Nat
deriving DecidableEq, Repr

/-- `cv2.cvtColor(img, cv2.COLOR_BGR2GRAY)`: single channel, same dimensions. -/
def cvtColorGray (r : Raster) : Raster := { r with channels := 1 }

/-- `scale = 2.0 if max(h, w) < 2000 else 1.0`. -/
def ocrScale (r : Raster) : Nat := if max r.height r.width < 2000 then 2 else 1

/-- `cv2.resize(gray, None, fx=s, fy=s, ...)` with an integer factor: output
dimensions are the input's times `s` exactly. -/
def resizeBy (s : Nat) (r : Raster) : Raster :=
  { r with height := s * r.height, width := s * r.width }

/-- `cv2.GaussianBlur(gray, (3, 3), 0)`: dimension-preserving. -/
def gaussianBlur3 (r : Raster) : Raster := r

/-- `cv2.adaptiveThreshold(gray, 255, ..., 31, 10)`: dimension-preserving. -/
def adaptiveThreshold31 (r : Raster) : Raster := r

/-- The deskew step: when foreground pixels exist, `cv2.warpAffine(thresh, M,
(ww, hh), ...)` explicitly targets the input's own `(width, height)`; when the
raster has no foreground pixels the rotation is skipped. Either way the
dimensions are unchanged. -/
def deskew (hasForeground : Bool) (angle : Int) (r : Raster) : Raster :=
  if hasForeground then { r with height := r.height, width := r.width } else r

/-- The normalization pipeline of `_ocr_image` before text recognition:
grayscale, conditional 2x upscale, blur, adaptive threshold, deskew. -/
def normalizeForOcr (hasForeground : Bool) (angle : Int) (img : Raster) : Raster :=
  let gray := cvtColorGray img
  let s := ocrScale gray
  let scaled := if s = 1 then gray else resizeBy s gray
  deskew hasForeground angle (adaptiveThreshold31 (gaussianBlur3 scaled))

/-! ### Paths and `Path.resolve`

A filesystem path is a flag for absoluteness plus a list of segments; resolved
paths are segment lists rooted at `/`. The working directory of the server
process is a normalized absolute segment list. -/

/-- A `pathlib.Path` value: absolute flag and segments (which may contain
`"."` and `".."`). -/
structure PyPath where
  absolute : Bool
  segs : List String
deriving DecidableEq, Repr

/-- Lexical normalization of `.` and `..` segments in an absolute segment
list, as performed by `Path.resolve` in the absence of symlinks (`..` at the
root stays at the root). -/
def normalizeSegs (segs : List String) : List String :=
  segs.foldl
    (fun acc seg =>
      if seg = "." then acc
      else if seg = ".." then acc.dropLast
      else acc ++ [seg])
    []

/-- `Path(p).resolve()` against working directory `cwd`. -/
def resolvePath (cwd : List String) (p : PyPath) : List String :=
  normalizeSegs ((if p.absolute then [] else cwd) ++ p.segs)

/-- `path.as_posix()`: the path's own textual form (not resolved). -/
def pathAsPosix (p : PyPath) : String :=
  (if p.absolute then "/" else "") ++ String.intercalate "/" p.segs

/-- `anc in target.parents`: `anc` is a proper prefix of `target`. -/
def inParents (anc target : List String) : Bool :=
  anc.isPrefixOf target && anc != target

/-! ### Expense rows, the database session, and the commit retry loop -/

/-- The in-memory `Expense` ORM object as the handlers construct it (equally
the shape of the `ExpenseRead` response model). Row ids are server-generated
(`uuid.uuid4()`), modelled as the row's index in the batch. Note that the
mapped table model (`app/models/expense.py`) declares every field except
`receipt_path`: that constructor argument lands on the instance as a plain
unmapped attribute (SQLModel table models pass constructor data through
`setattr` without validation), so it is readable in memory but is not a
column the ORM writes — see `persistRow`. -/
structure Expense where
  id : Nat
  user_id : String
  amount : ℚ
  currency : String
  description : String
  category : String
  expense_date : Nat
  receipt_path : Option String
  created_at : Nat
  updated_at : Nat
  deleted_at : Option Nat
deriving DecidableEq, Repr

/-- One item of the confirm payload (`ReceiptConfirmItem`), already validated
by the framework on request parsing. -/
structure ReceiptConfirmItem where
  amount : ℚ
  currency : String
  description : String
  category : String
  expense_date : Option Nat
deriving DecidableEq, Repr

/-- The ORM session: rows committed to the database, plus instances added to
the session but not yet committed. -/
structure DbSession where
  committed : List Expense
  pending : List Expense
deriving Repr

/-- `session.add(expense)`. -/
def sessionAdd (s : DbSession) (e : Expense) : DbSession :=
  { s with pending := s.pending ++ [e] }

/-- The projection of an in-memory `Expense` object onto the columns the ORM
INSERT actually writes: the mapped model `app/models/expense.py` declares
`id, user_id, amount, currency, description, category, expense_date,
created_at, updated_at, deleted_at` but no `receipt_path`, so the
`receipt_path` column (added to the table only by the out-of-band
`scripts/migrate_add_receipt_path.py`) keeps its NULL default. -/
def persistRow (e : Expense) : Expense :=
  { e with receipt_path := none }

/-- `session.commit()`: on success the whole pending batch is flushed into the
database atomically, each row restricted to its mapped columns
(`persistRow`); on a transient `OperationalError` (decided by the contention
oracle) nothing is written. -/
def sessionCommit (fails : Bool) (s : DbSession) : Except Unit DbSession :=
  if fails then .error ()
  else .ok { committed := s.committed ++ s.pending.map persistRow, pending := [] }

/-- `session.rollback()`: the transaction is rolled back and instances that
were pending in it are expunged from the session (SQLAlchemy
`Session.rollback` semantics); the committed database state is unchanged. -/
def sessionRollback (s : DbSession) : DbSession :=
  { s with pending := [] }

/-- The errors surfaced by `confirm_receipt`. -/
inductive ConfirmError where
  | badRequest
  | forbidden
  | notFound
  | storageBusy
deriving DecidableEq, Repr

/-- The loop `for attempt in range(3): try: session.commit(); break; except
OperationalError: session.rollback(); if attempt == 2: raise ...;
time.sleep(0.25 * (attempt + 1))`. The oracle `commitFails` says which
attempts hit contention; the second component lists the sleeps performed, in
milliseconds. -/
def commitRetryAux (commitFails : Nat → Bool) :
    Nat → Nat → DbSession → Except Unit DbSession × List Nat
  | 0, _, s => (.ok s, [])
  | cf + 1, attempt, s =>
    match sessionCommit (commitFails attempt) s with
    | .ok s' => (.ok s', [])
    | .error _ =>
      let s' := sessionRollback s
      if attempt = 2 then (.error (), [])
      else
        let r := commitRetryAux commitFails cf (attempt + 1) s'
        (r.1, 250 * (attempt + 1) :: r.2)

/-- The whole bounded-retry commit, three attempts starting at attempt 0. -/
def commitRetry (commitFails : Nat → Bool) (s : DbSession) :
    Except Unit DbSession × List Nat :=
  commitRetryAux commitFails 3 0 s

/-! ### The `confirm` endpoint `confirm_receipt` -/

/-- Construction of one `Expense(...)` object in the confirm loop: fields
come from the payload item, identity and timestamps are server-assigned, and
the `receipt_path=` argument (the payload path's posix form) is set on the
instance even though it is not a mapped column (see `Expense` and
`persistRow`). -/
def mkConfirmExpense (uid : String) (now today : Nat) (rpath : String)
    (idx : Nat) (item : ReceiptConfirmItem) : Expense :=
  { id := idx
    user_id := uid
    amount := item.amount
    currency := item.currency
    description := item.description
    category := item.category
    expense_date := item.expense_date.getD today
    receipt_path := some rpath
    created_at := now
    updated_at := now
    deleted_at := none }

/-- `confirm_receipt`: re-validate the payload path (inside the uploads root,
strictly inside the calling user's namespace, naming an existing file), build
one `Expense` per payload item, commit with bounded retry, and return the
created rows. Result components: the endpoint outcome (response path and
created rows, or the HTTP error), the final committed database state, and the
backoff sleeps performed (ms). -/
def confirmReceipt (cwd : List String) (uid : String) (now today : Nat)
    (fileExistsAt : List String → Bool) (commitFails : Nat → Bool)
    (db : List Expense) (receiptPath : PyPath) (items : List ReceiptConfirmItem) :
    Except ConfirmError (String × List Expense) × List Expense × List Nat :=
  let resolved := resolvePath cwd receiptPath
  let uploadsRoot := cwd ++ ["uploads"]
  if !inParents uploadsRoot resolved && resolved != uploadsRoot then
    (.error .badRequest, db, [])
  else
    let userDir := cwd ++ ["uploads", uid]
    if !inParents userDir resolved then (.error .forbidden, db, [])
    else if !fileExistsAt resolved then (.error .notFound, db, [])
    else
      let rpath := pathAsPosix receiptPath
      let created := items.enum.map fun p => mkConfirmExpense uid now today rpath p.1 p.2
      let sess := created.foldl sessionAdd { committed := db, pending := [] }
      let cr := commitRetry commitFails sess
      match cr.1 with
      | .error _ => (.error .storageBusy, db, cr.2)
      | .ok s' => (.ok (rpath, created), s'.committed, cr.2)

/-! ### The `process` endpoint `process_receipt`

The upload is abstracted to its content type and byte length; `file.file.read(
MAX_UPLOAD_BYTES + 1)` returns `min uploadLen (MAX_UPLOAD_BYTES + 1)` bytes.
OCR is an oracle (`Except Unit String`), classification availability is the
triple `apiKey, depsOk, llm` as in `classifyCategories`. The result carries
the list of files written and the number of database writes performed. -/

/-- `MAX_UPLOAD_BYTES = 10 * 1024 * 1024`. -/
def MAX_UPLOAD_BYTES : Nat := 10 * 1024 * 1024

/-- `(file.content_type or "").lower()` on ASCII content types. -/
def pyLower (s : String) : String := String.mk (s.data.map Char.toLower)

/-- The errors surfaced by `process_receipt` (directly or from its helpers). -/
inductive ProcessError where
  | unsupportedType
  | emptyFile
  | tooLarge
  | ocrFailed
  | extractionFailed
  | classifyFailed (e : ClassifyError)
deriving DecidableEq, Repr

/-- The response of `process_receipt` (`ReceiptProcessOut`): stored path, raw
OCR text, and the ephemeral preview rows. -/
structure ReceiptProcessOut where
  receipt_path : String
  ocr_text : String
  expenses_preview : List Expense
deriving DecidableEq, Repr

/-- Construction of one preview `ExpenseRead` row from a classified item. -/
def mkPreviewExpense (uid : String) (now today : Nat) (rpath : String)
    (idx : Nat) (item : ReceiptExpenseItem) : Expense :=
  { id := idx
    user_id := uid
    amount := item.amount
    currency := item.currency
    description := item.description
    category := item.category
    expense_date := item.expense_date.getD today
    receipt_path := some rpath
    created_at := now
    updated_at := now
    deleted_at := none }

/-- `process_receipt`: validate content type and size, store the artifact
under the caller's namespace, OCR it, extract candidates with the pattern
strategy, classify their descriptions, and return the preview. Components of
the result: the endpoint outcome, the paths of files written, and the number
of database writes performed. -/
def processReceipt (uid : String) (now today : Nat) (fileToken : String)
    (contentType : String) (uploadLen : Nat)
    (ocrResult : Except Unit String)
    (apiKey : Option String) (depsOk : Bool) (llm : List String → Option JValue) :
    Except ProcessError ReceiptProcessOut × List (List String) × Nat :=
  let ct := pyLower contentType
  if !(ct == "image/jpeg" || ct == "image/png") then (.error .unsupportedType, [], 0)
  else
    let dataLen := min uploadLen (MAX_UPLOAD_BYTES + 1)
    if dataLen = 0 then (.error .emptyFile, [], 0)
    else if MAX_UPLOAD_BYTES < dataLen then (.error .tooLarge, [], 0)
    else
      let ext := if ct == "image/jpeg" then ".jpg" else ".png"
      let savePath := ["uploads", uid, "receipt_" ++ fileToken ++ ext]
      let writes := [savePath]
      match ocrResult with
      | .error _ => (.error .ocrFailed, writes, 0)
      | .ok ocrText =>
        match parseReceiptLocally today ocrText with
        | .error _ => (.error .extractionFailed, writes, 0)
        | .ok items =>
          match (classifyCategories apiKey depsOk llm (items.map fun i => i.description)).1 with
          | .error e => (.error (.classifyFailed e), writes, 0)
          | .ok m =>
            let classified := applyCategoryMap m items
            let rpath := String.intercalate "/" savePath
            let preview := classified.enum.map fun p =>
              mkPreviewExpense uid now today rpath p.1 p.2
            (.ok ⟨rpath, ocrText, preview⟩, writes, 0)

/-! ### Supporting lemmas -/

theorem mkReceiptItemChecked_ok_iff (today : Nat) (a : ℚ) (c d cat : String)
    (ed : Option Nat) (it : ReceiptExpenseItem) :
    mkReceiptItemChecked today a c d cat ed = .ok it ↔
      validItemFields today a c d cat ed = true ∧ it = ⟨a, c, d, cat, ed⟩ := by
  unfold mkReceiptItemChecked
  split
  · rename_i h
    constructor
    · intro hok
      exact ⟨h, (Except.ok.injEq _ _).mp hok.symm⟩
    · intro ⟨_, hit⟩
      rw [hit]
  · rename_i h
    simp only [Bool.not_eq_true] at h
    constructor
    · intro hok
      cases hok
    · intro ⟨hv, _⟩
      rw [h] at hv
      cases hv

theorem buildLocalItems_nil (today : Nat) : buildLocalItems today [] = .ok [] := rfl

/-- Every item emitted by the pattern-based extractor's loop satisfies the
candidate invariants. -/
theorem buildLocalItems_mem_spec (today : Nat) :
    ∀ gs l, buildLocalItems today gs = .ok l →
      ∀ it ∈ l, 0 < it.amount ∧ it.currency = "CAD" ∧ it.description ≠ "" ∧
        it.category = "OTHER" ∧ it.expense_date = none := by
  intro gs
  induction gs with
  | nil =>
    intro l h it hit
    rw [buildLocalItems_nil] at h
    cases h
    cases hit
  | cons g gs ih =>
    intro l h it hit
    rw [buildLocalItems] at h
    by_cases hdesc : normWs g.g2 = ""
    · rw [if_pos hdesc] at h
      exact ih l h it hit
    · rw [if_neg hdesc] at h
      by_cases hamount : matchAmountQ g.g3 g.g4 ≤ 0
      · rw [if_pos hamount] at h
        exact ih l h it hit
      · rw [if_neg hamount] at h
        rcases hmk : mkReceiptItemChecked today (matchAmountQ g.g3 g.g4) "CAD"
            (normWs g.g2) "OTHER" none with e | it0
        · rw [hmk] at h
          cases h
        · rw [hmk] at h
          rcases hrest : buildLocalItems today gs with e | rest
          · rw [hrest] at h
            cases h
          · rw [hrest] at h
            cases h
            obtain ⟨-, hit0⟩ := (mkReceiptItemChecked_ok_iff _ _ _ _ _ _ _).mp hmk
            rcases List.mem_cons.mp hit with rfl | hmem
            · rw [hit0]
              refine ⟨lt_of_not_le hamount, rfl, hdesc, rfl, rfl⟩
            · exact ih rest hrest it hmem

/-- A single invalid element makes the whole element-validation loop fail. -/
theorem validateCandidateItems_error_of_mem (today : Nat) :
    ∀ xs, ∀ x ∈ xs, validateCandidateItem today x = .error () →
      validateCandidateItems today xs = .error () := by
  intro xs
  induction xs with
  | nil =>
    intro x hx
    cases hx
  | cons y ys ih =>
    intro x hx hv
    rw [validateCandidateItems]
    rcases hy : validateCandidateItem today y with e | it
    · rfl
    · rcases List.mem_cons.mp hx with rfl | hmem
      · rw [hy] at hv
        cases hv
      · rw [ih x hmem hv]

/-- A successful element-validation run validates every element: the output
has one item per input element, each produced by `validateCandidateItem`. -/
theorem validateCandidateItems_ok_spec (today : Nat) :
    ∀ xs l, validateCandidateItems today xs = .ok l →
      l.length = xs.length ∧ ∀ it ∈ l, ∃ x ∈ xs, validateCandidateItem today x = .ok it := by
  intro xs
  induction xs with
  | nil =>
    intro l h
    cases h
    exact ⟨rfl, by intro it hit; cases hit⟩
  | cons y ys ih =>
    intro l h
    rw [validateCandidateItems] at h
    rcases hy : validateCandidateItem today y with e | it0
    · rw [hy] at h
      cases h
    · rw [hy] at h
      rcases hys : validateCandidateItems today ys with e | rest
      · rw [hys] at h
        cases h
      · rw [hys] at h
        cases h
        obtain ⟨hlen, hmem⟩ := ih rest hys
        refine ⟨by simp [hlen], ?_⟩
        intro it hit
        rcases List.mem_cons.mp hit with rfl | hit'
        · exact ⟨y, List.mem_cons_self y ys, hy⟩
        · obtain ⟨x, hx, hvx⟩ := hmem it hit'
          exact ⟨x, List.mem_cons_of_mem y hx, hvx⟩

/-- The deduplication fold keeps exactly the members, without duplicates. -/
theorem pyDedup_fold_spec (xs : List String) :
    ∀ acc : List String, acc.Nodup →
      (xs.foldl (fun acc x => if x ∈ acc then acc else acc ++ [x]) acc).Nodup ∧
      ∀ d, d ∈ xs.foldl (fun acc x => if x ∈ acc then acc else acc ++ [x]) acc ↔
        d ∈ acc ∨ d ∈ xs := by
  induction xs with
  | nil =>
    intro acc hacc
    simpa using hacc
  | cons x xs ih =>
    intro acc hacc
    simp only [List.foldl_cons]
    by_cases hx : x ∈ acc
    · rw [if_pos hx]
      obtain ⟨h1, h2⟩ := ih acc hacc
      refine ⟨h1, fun d => ?_⟩
      rw [h2 d, List.mem_cons]
      constructor
      · rintro (hd | hd)
        · exact Or.inl hd
        · exact Or.inr (Or.inr hd)
      · rintro (hd | rfl | hd)
        · exact Or.inl hd
        · exact Or.inl hx
        · exact Or.inr hd
    · rw [if_neg hx]
      have hacc' : (acc ++ [x]).Nodup := by
        simp [List.nodup_append, hacc, List.disjoint_singleton, hx]
      obtain ⟨h1, h2⟩ := ih (acc ++ [x]) hacc'
      refine ⟨h1, fun d => ?_⟩
      rw [h2 d, List.mem_append, List.mem_singleton, List.mem_cons]
      tauto

theorem pyDedup_nodup (xs : List String) : (pyDedup xs).Nodup :=
  (pyDedup_fold_spec xs [] List.nodup_nil).1

theorem pyDedup_mem (xs : List String) (d : String) : d ∈ pyDedup xs ↔ d ∈ xs := by
  rw [pyDedup, (pyDedup_fold_spec xs [] List.nodup_nil).2 d]
  simp

/-- Adding a batch to a session appends it to the pending instances. -/
theorem foldl_sessionAdd (l : List Expense) :
    ∀ c p : List Expense, l.foldl sessionAdd ⟨c, p⟩ = ⟨c, p ++ l⟩ := by
  induction l with
  | nil =>
    intro c p
    simp
  | cons e l ih =>
    intro c p
    simp only [List.foldl_cons, sessionAdd, ih, List.append_assoc, List.singleton_append]

/-- Being strictly inside a subdirectory means being strictly inside its
parent. -/
theorem inParents_of_append (a : List String) (x : String) (b : List String)
    (h : inParents (a ++ [x]) b = true) : inParents a b = true := by
  simp only [inParents, Bool.and_eq_true, List.isPrefixOf_iff_prefix, bne_iff_ne, ne_eq,
    decide_eq_true_eq] at h ⊢
  obtain ⟨hp, hne⟩ := h
  have hpre : a <+: b := (List.prefix_append a [x]).trans hp
  refine ⟨hpre, fun hab => ?_⟩
  have hlen := hp.length_le
  rw [← hab] at hlen
  simp at hlen

/-! ### Claim theorems -/

/-- C10: the normalizer converts to a single channel and upscales by exactly
2x if and only if the longer input dimension is strictly below 2000 pixels;
otherwise the dimensions pass through unchanged — the scale factor is always
exactly 1 or 2, never fractional. -/
theorem normalizer_dims_channels (img : Raster) (hasFg : Bool) (angle : Int) :
    (normalizeForOcr hasFg angle img).channels = 1 ∧
    (max img.height img.width < 2000 →
      (normalizeForOcr hasFg angle img).height = 2 * img.height ∧
      (normalizeForOcr hasFg angle img).width = 2 * img.width) ∧
    (2000 ≤ max img.height img.width →
      (normalizeForOcr hasFg angle img).height = img.height ∧
      (normalizeForOcr hasFg angle img).width = img.width) := by
  by_cases h : max img.height img.width < 2000
  · cases hasFg <;>
      simp [normalizeForOcr, deskew, adaptiveThreshold31, gaussianBlur3, ocrScale,
        cvtColorGray, resizeBy, h, not_le.mpr h]
  · cases hasFg <;>
      simp [normalizeForOcr, deskew, adaptiveThreshold31, gaussianBlur3, ocrScale,
        cvtColorGray, resizeBy, h, not_lt.mp h]

/-- C10 witness: a 1500x800 raster is upscaled to 3000x1600 single-channel; a
2500x900 raster passes through unscaled. -/
theorem normalizer_dims_channels_witness :
    max 1500 800 < 2000 ∧
    (normalizeForOcr true 3 ⟨1500, 800, 3⟩).height = 2 * 1500 ∧
    2000 ≤ max 2500 900 ∧
    (normalizeForOcr false 0 ⟨2500, 900, 3⟩).width = 900 :=
  ⟨by decide, (normalizer_dims_channels ⟨1500, 800, 3⟩ true 3).2.1 (by decide) |>.1,
   by decide, (normalizer_dims_channels ⟨2500, 900, 3⟩ false 0).2.2 (by decide) |>.2⟩

/-- C8 counterexample: with the empty description list but no configured API
key, the classifier raises ServiceUnavailable instead of returning the empty
mapping — the key check precedes the empty-input short-circuit. -/
theorem classify_empty_without_key_fails :
    classifyCategories none true (fun _ => none) [] = (.error .missingApiKey, []) := rfl

/-- C8 amended: with the API key configured, the empty description list
returns the empty mapping with zero external-model calls (even when the model
dependencies are missing); with the key missing, even the empty list fails
with ServiceUnavailable before the short-circuit. -/
theorem classify_empty_with_key (k : String) (depsOk : Bool)
    (llm : List String → Option JValue) :
    classifyCategories (some k) depsOk llm [] = (.ok [], []) ∧
    classifyCategories none depsOk llm [] = (.error .missingApiKey, []) := ⟨rfl, rfl⟩

/-- C6 counterexample: a model response whose JSON document is `null` is not
rejected — it yields the empty candidate list, contradicting "any shape other
than an array is rejected as MalformedModelOutput". -/
theorem llm_null_output_accepted : parseLlmOutput 0 (some .null) = .ok [] := rfl

/-- C6 amended: an unparsable response, a top-level object, and any non-array
non-null document are rejected; a `null` document yields the empty list; for
an array, one invalid element fails the whole call, and a successful call
validates every element (no partial acceptance). -/
theorem llm_output_validation (today : Nat) (data : Option JValue) :
    (data = none → parseLlmOutput today data = .error .notJson) ∧
    (∀ fs, data = some (.obj fs) → parseLlmOutput today data = .error .topLevelObject) ∧
    (∀ b, data = some (.bool b) → parseLlmOutput today data = .error .notArray) ∧
    (∀ q, data = some (.num q) → parseLlmOutput today data = .error .notArray) ∧
    (∀ s, data = some (.str s) → parseLlmOutput today data = .error .notArray) ∧
    (∀ xs, data = some (.arr xs) →
      (∀ x ∈ xs, validateCandidateItem today x = .error () →
        parseLlmOutput today data = .error .invalidItem) ∧
      (∀ l, parseLlmOutput today data = .ok l →
        validateCandidateItems today xs = .ok l ∧ l.length = xs.length ∧
        ∀ it ∈ l, ∃ x ∈ xs, validateCandidateItem today x = .ok it)) := by
  refine ⟨?_, ?_, ?_, ?_, ?_, ?_⟩
  · rintro rfl
    rfl
  · rintro fs rfl
    rfl
  · rintro b rfl
    rfl
  · rintro q rfl
    rfl
  · rintro s rfl
    rfl
  · rintro xs rfl
    constructor
    · intro x hx hv
      rw [parseLlmOutput, validateCandidateItems_error_of_mem today xs x hx hv]
    · intro l h
      rw [parseLlmOutput] at h
      rcases hv : validateCandidateItems today xs with e | l'
      · rw [hv] at h
        cases h
      · rw [hv] at h
        cases h
        exact ⟨rfl, (validateCandidateItems_ok_spec today xs _ hv).1,
          (validateCandidateItems_ok_spec today xs _ hv).2⟩

/-- C6 witness: a top-level object is rejected; an array with one invalid
element (negative amount) fails whole; a valid two-element array is accepted
in full. -/
theorem llm_output_validation_witness :
    parseLlmOutput 20260101 (some (.obj [("amount", .num 3)])) = .error .topLevelObject ∧
    parseLlmOutput 20260101 (some (.arr [.obj [("amount", .num 3), ("description", .str "a")],
      .obj [("amount", .num (-1)), ("description", .str "b")]])) = .error .invalidItem ∧
    (parseLlmOutput 20260101 (some (.arr [.obj [("amount", .num 3), ("description", .str "a")],
      .obj [("amount", .num 2), ("description", .str "b")]])) |>.isOk) = true := by
  refine ⟨(llm_output_validation 20260101 _).2.1 _ rfl, ?_, by decide⟩
  exact ((llm_output_validation 20260101 _).2.2.2.2.2 _ rfl).1
    (.obj [("amount", .num (-1)), ("description", .str "b")]) (by simp) (by decide)

set_option maxRecDepth 100000 in
set_option maxHeartbeats 1000000 in
/-- C5 counterexample: an OCR text whose single matched description has 256
characters makes the pattern-based extractor raise a validation error (the
`max_length=255` bound of `ReceiptExpenseItem.description` is checked at
construction and the loop does not catch it) — so the extractor does not
"never error". -/
theorem local_extractor_long_description_error :
    parseReceiptLocally 0 ("1 " ++ String.mk (List.replicate 256 'a') ++ " 4 50") =
      .error () := by decide

/-- C5 amended: the pattern-based extractor returns the empty sequence on
texts with zero pattern matches, and every item it does emit has a strictly
positive amount, the three-uppercase-letter default currency "CAD", a
non-empty description, category OTHER and no expense date (non-positive
amounts and empty descriptions are skipped); however a matched description
normalizing to more than 255 characters raises a validation error instead of
being skipped. -/
theorem local_extractor_invariants (today : Nat) (text : String) :
    (receiptFinditer (nbspReplace text) = [] → parseReceiptLocally today text = .ok []) ∧
    (∀ l, parseReceiptLocally today text = .ok l →
      ∀ it ∈ l, 0 < it.amount ∧ it.currency = "CAD" ∧ currencyOk it.currency = true ∧
        it.description ≠ "" ∧ it.category = "OTHER" ∧ it.expense_date = none) := by
  constructor
  · intro h
    rw [parseReceiptLocally, h]
    rfl
  · intro l h it hit
    rw [parseReceiptLocally] at h
    obtain ⟨h1, h2, h3, h4, h5⟩ :=
      buildLocalItems_mem_spec today (receiptFinditer (nbspReplace text)) l h it hit
    exact ⟨h1, h2, by rw [h2]; decide, h3, h4, h5⟩

/-- C5 witness: "no expenses here" yields the empty sequence; the end-to-end
example text yields two items, both satisfying all invariants. -/
theorem local_extractor_invariants_witness :
    receiptFinditer (nbspReplace "no expenses here") = [] ∧
    parseReceiptLocally 0 "no expenses here" = .ok [] ∧
    (parseReceiptLocally 0 "2 Coffee 4.50\n1 Bus 2,75" =
      .ok [⟨mkRat 450 100, "CAD", "Coffee", "OTHER", none⟩,
           ⟨mkRat 275 100, "CAD", "Bus", "OTHER", none⟩]) ∧
    (0 : ℚ) < mkRat 450 100 ∧ currencyOk "CAD" = true := by
  refine ⟨by decide, (local_extractor_invariants 0 "no expenses here").1 (by decide),
    by decide, ?_, by decide⟩
  have h := ((local_extractor_invariants 0 "2 Coffee 4.50\n1 Bus 2,75").2
      [⟨mkRat 450 100, "CAD", "Coffee", "OTHER", none⟩,
       ⟨mkRat 275 100, "CAD", "Bus", "OTHER", none⟩] (by decide))
    ⟨mkRat 450 100, "CAD", "Coffee", "OTHER", none⟩ (by decide)
  exact h.1

/-- The classifier sends at most one batch to the model, and that batch is the
deduplicated description list. -/
theorem classifyCategories_calls (apiKey : Option String) (depsOk : Bool)
    (llm : List String → Option JValue) (ds : List String) :
    (classifyCategories apiKey depsOk llm ds).2 = [] ∨
    (classifyCategories apiKey depsOk llm ds).2 = [pyDedup ds] := by
  rcases apiKey with _ | k
  · exact Or.inl rfl
  · by_cases hd : ds = []
    · left
      simp [classifyCategories, hd]
    · by_cases hdeps : depsOk
      · rcases hl : llm (pyDedup ds) with _ | v
        · right
          simp [classifyCategories, hd, hdeps, hl]
        · rcases v with _ | b | q | s | xs | fs <;> right <;>
            simp [classifyCategories, hd, hdeps, hl]
      · left
        simp [classifyCategories, hd, hdeps]

/-- Every entry kept by the response filter has its value in the closed
category set. -/
theorem filterAllowed_mem (fs : List (String × JValue)) (pr : String × String)
    (h : pr ∈ filterAllowed fs) : pr.2 ∈ allowedCategories := by
  rw [filterAllowed, List.mem_filterMap] at h
  obtain ⟨a, _, hsome⟩ := h
  rcases a with ⟨k, v⟩
  rcases v with _ | b | q | s | xs | gs <;> simp only at hsome <;> try cases hsome
  by_cases hs : s ∈ allowedCategories
  · rw [if_pos hs] at hsome
    cases hsome
    exact hs
  · rw [if_neg hs] at hsome
    cases hsome

/-- A successful classification only returns categories from the closed set. -/
theorem classifyCategories_ok_values (apiKey : Option String) (depsOk : Bool)
    (llm : List String → Option JValue) (ds : List String) :
    ∀ m, (classifyCategories apiKey depsOk llm ds).1 = .ok m →
      ∀ pr ∈ m, pr.2 ∈ allowedCategories := by
  intro m hm pr hpr
  rcases apiKey with _ | k
  · cases hm
  · by_cases hd : ds = []
    · simp [classifyCategories, hd] at hm
      subst hm
      cases hpr
    · by_cases hdeps : depsOk
      · rcases hl : llm (pyDedup ds) with _ | v
        · simp [classifyCategories, hd, hdeps, hl] at hm
        · rcases v with _ | b | q | s | xs | fs <;>
            simp [classifyCategories, hd, hdeps, hl] at hm
          subst hm
          exact filterAllowed_mem fs pr hpr
      · simp [classifyCategories, hd, hdeps] at hm

/-- An item whose description is unmapped is defaulted to OTHER by the
orchestrator loop. -/
theorem applyCategoryMap_default (m : List (String × String))
    (items : List ReceiptExpenseItem) (it : ReceiptExpenseItem)
    (hit : it ∈ applyCategoryMap m items)
    (hnone : lookupCategory m it.description = none) : it.category = "OTHER" := by
  rw [applyCategoryMap, List.mem_map] at hit
  obtain ⟨it0, -, rfl⟩ := hit
  simp only at hnone ⊢
  rw [hnone]
  rfl

/-- The orchestrator assigns equal categories to items with equal
descriptions (one mapping entry covers all occurrences). -/
theorem applyCategoryMap_consistent (m : List (String × String))
    (items : List ReceiptExpenseItem) (it₁ it₂ : ReceiptExpenseItem)
    (h1 : it₁ ∈ applyCategoryMap m items) (h2 : it₂ ∈ applyCategoryMap m items)
    (hd : it₁.description = it₂.description) : it₁.category = it₂.category := by
  rw [applyCategoryMap, List.mem_map] at h1 h2
  obtain ⟨a, -, rfl⟩ := h1
  obtain ⟨b, -, rfl⟩ := h2
  simp only at hd ⊢
  rw [hd]

/-- C9: the classifier deduplicates before its single external call (the
batch sent is the duplicate-free first-occurrence list with the same
members), every value of a successful mapping lies in the closed category
set, and the orchestrator defaults unmapped descriptions to OTHER, applying
one mapping entry to all occurrences of a description. -/
theorem classify_dedup_and_closed_set (apiKey : Option String) (depsOk : Bool)
    (llm : List String → Option JValue) (descriptions : List String) :
    (classifyCategories apiKey depsOk llm descriptions).2.length ≤ 1 ∧
    (∀ q ∈ (classifyCategories apiKey depsOk llm descriptions).2,
      q = pyDedup descriptions) ∧
    (pyDedup descriptions).Nodup ∧
    (∀ d, d ∈ pyDedup descriptions ↔ d ∈ descriptions) ∧
    (∀ m, (classifyCategories apiKey depsOk llm descriptions).1 = .ok m →
      ∀ pr ∈ m, pr.2 ∈ allowedCategories) ∧
    (∀ m items it, it ∈ applyCategoryMap m items →
      lookupCategory m it.description = none → it.category = "OTHER") ∧
    (∀ m items it₁ it₂, it₁ ∈ applyCategoryMap m items →
      it₂ ∈ applyCategoryMap m items →
      it₁.description = it₂.description → it₁.category = it₂.category) := by
  refine ⟨?_, ?_, pyDedup_nodup descriptions, pyDedup_mem descriptions,
    classifyCategories_ok_values apiKey depsOk llm descriptions,
    fun m items it => applyCategoryMap_default m items it,
    fun m items it₁ it₂ => applyCategoryMap_consistent m items it₁ it₂⟩
  · rcases classifyCategories_calls apiKey depsOk llm descriptions with h | h <;>
      simp [h]
  · intro q hq
    rcases classifyCategories_calls apiKey depsOk llm descriptions with h | h <;>
        rw [h] at hq
    · cases hq
    · simpa using hq

/-- C9 witness: the spec's example batch is deduplicated to two unique
descriptions; the out-of-enum value BANANA is discarded while FOOD is kept,
and both occurrences of Coffee receive FOOD while the unmapped item falls
back to OTHER. -/
theorem classify_dedup_and_closed_set_witness :
    pyDedup ["Coffee", "Coffee", "Bus fare"] = ["Coffee", "Bus fare"] ∧
    classifyCategories (some "key") true
      (fun _ => some (.obj [("Coffee", .str "FOOD"), ("Bus fare", .str "BANANA")]))
      ["Coffee", "Coffee", "Bus fare"] =
      (.ok [("Coffee", "FOOD")], [["Coffee", "Bus fare"]]) ∧
    ("FOOD" : String) ∈ allowedCategories ∧
    applyCategoryMap [("Coffee", "FOOD")]
      [⟨mkRat 450 100, "CAD", "Coffee", "OTHER", none⟩,
       ⟨mkRat 450 100, "CAD", "Coffee", "OTHER", none⟩,
       ⟨mkRat 275 100, "CAD", "Bus fare", "OTHER", none⟩] =
      [⟨mkRat 450 100, "CAD", "Coffee", "FOOD", none⟩,
       ⟨mkRat 450 100, "CAD", "Coffee", "FOOD", none⟩,
       ⟨mkRat 275 100, "CAD", "Bus fare", "OTHER", none⟩] ∧
    (⟨mkRat 275 100, "CAD", "Bus fare", "OTHER", none⟩ : ReceiptExpenseItem).category
      = "OTHER" := by
  refine ⟨by decide, by decide, ?_, by decide, ?_⟩
  · exact (classify_dedup_and_closed_set (some "key") true
      (fun _ => some (.obj [("Coffee", .str "FOOD"), ("Bus fare", .str "BANANA")]))
      ["Coffee", "Coffee", "Bus fare"]).2.2.2.2.1 [("Coffee", "FOOD")] (by decide)
      ("Coffee", "FOOD") (by decide)
  · exact (classify_dedup_and_closed_set (some "key") true
      (fun _ => some (.obj [("Coffee", .str "FOOD"), ("Bus fare", .str "BANANA")]))
      ["Coffee", "Coffee", "Bus fare"]).2.2.2.2.2.1 [("Coffee", "FOOD")]
      [⟨mkRat 450 100, "CAD", "Coffee", "OTHER", none⟩,
       ⟨mkRat 450 100, "CAD", "Coffee", "OTHER", none⟩,
       ⟨mkRat 275 100, "CAD", "Bus fare", "OTHER", none⟩]
      ⟨mkRat 275 100, "CAD", "Bus fare", "OTHER", none⟩ (by decide) (by decide)

/-- C1 counterexample: the payload path `uploads/u1/extra/../r.jpg` contains a
`..` segment, yet (because it resolves inside the calling user's namespace and
names an existing file) `confirm_receipt` accepts it and persists the row —
so "a receipt_path containing `..` segments is rejected" fails on the code. -/
theorem confirm_dotdot_inside_namespace_accepted :
    ".." ∈ (PyPath.mk false ["uploads", "u1", "extra", "..", "r.jpg"]).segs ∧
    resolvePath [] ⟨false, ["uploads", "u1", "extra", "..", "r.jpg"]⟩ =
      ["uploads", "u1", "r.jpg"] ∧
    (confirmReceipt [] "u1" 7 20260101 (fun l => l == ["uploads", "u1", "r.jpg"])
        (fun _ => false) [] ⟨false, ["uploads", "u1", "extra", "..", "r.jpg"]⟩
        [⟨mkRat 5 1, "CAD", "Coffee", "FOOD", none⟩]).1.isOk = true ∧
    (confirmReceipt [] "u1" 7 20260101 (fun l => l == ["uploads", "u1", "r.jpg"])
        (fun _ => false) [] ⟨false, ["uploads", "u1", "extra", "..", "r.jpg"]⟩
        [⟨mkRat 5 1, "CAD", "Coffee", "FOOD", none⟩]).2.1.length = 1 := by decide

/-- C1 amended: the rejection is decided by where the path resolves after
`.`/`..` normalization, not by the mere presence of `..` segments: resolving
outside the uploads root is BadRequest, resolving inside the root but not
strictly inside the calling user's namespace is Forbidden, and passing both
checks but naming a non-existent file is NotFound; in each case the database
is unchanged (a `..` path that still resolves strictly inside the caller's
namespace is accepted). -/
theorem confirm_path_validation_amended (cwd : List String) (uid : String)
    (now today : Nat) (fe : List String → Bool) (cf : Nat → Bool)
    (db : List Expense) (p : PyPath) (items : List ReceiptConfirmItem) :
    (inParents (cwd ++ ["uploads"]) (resolvePath cwd p) = false →
      resolvePath cwd p ≠ cwd ++ ["uploads"] →
      confirmReceipt cwd uid now today fe cf db p items = (.error .badRequest, db, [])) ∧
    ((inParents (cwd ++ ["uploads"]) (resolvePath cwd p) = true ∨
        resolvePath cwd p = cwd ++ ["uploads"]) →
      inParents (cwd ++ ["uploads", uid]) (resolvePath cwd p) = false →
      confirmReceipt cwd uid now today fe cf db p items = (.error .forbidden, db, [])) ∧
    (inParents (cwd ++ ["uploads", uid]) (resolvePath cwd p) = true →
      fe (resolvePath cwd p) = false →
      confirmReceipt cwd uid now today fe cf db p items = (.error .notFound, db, [])) := by
  refine ⟨?_, ?_, ?_⟩
  · intro h1 h2
    simp [confirmReceipt, h1, h2]
  · intro hin hfu
    rcases hin with hin | hin
    · simp [confirmReceipt, hin, hfu]
    · rw [hin] at hfu
      simp [confirmReceipt, hin, hfu]
  · intro huser hex
    have hroot : inParents (cwd ++ ["uploads"]) (resolvePath cwd p) = true := by
      apply inParents_of_append (cwd ++ ["uploads"]) uid
      have hassoc : (cwd ++ ["uploads"]) ++ [uid] = cwd ++ ["uploads", uid] := by simp
      rw [hassoc]
      exact huser
    simp [confirmReceipt, hroot, huser, hex]

/-- C1 witness: `../../etc/passwd` resolves outside the root and is
BadRequest; `uploads/u2/r.jpg` is inside the root but in another user's
namespace and is Forbidden; `uploads/u1/missing.jpg` passes both checks but
does not exist and is NotFound — each leaving the database unchanged. -/
theorem confirm_path_validation_witness :
    confirmReceipt [] "u1" 7 20260101 (fun _ => true) (fun _ => false) []
      ⟨false, ["..", "..", "etc", "passwd"]⟩ [] = (.error .badRequest, [], []) ∧
    confirmReceipt [] "u1" 7 20260101 (fun _ => true) (fun _ => false) []
      ⟨false, ["uploads", "u2", "r.jpg"]⟩ [] = (.error .forbidden, [], []) ∧
    confirmReceipt [] "u1" 7 20260101 (fun _ => false) (fun _ => false) []
      ⟨false, ["uploads", "u1", "missing.jpg"]⟩ [] = (.error .notFound, [], []) :=
  ⟨(confirm_path_validation_amended [] "u1" 7 20260101 (fun _ => true) (fun _ => false) []
      ⟨false, ["..", "..", "etc", "passwd"]⟩ []).1 (by decide) (by decide),
   (confirm_path_validation_amended [] "u1" 7 20260101 (fun _ => true) (fun _ => false) []
      ⟨false, ["uploads", "u2", "r.jpg"]⟩ []).2.1 (Or.inl (by decide)) (by decide),
   (confirm_path_validation_amended [] "u1" 7 20260101 (fun _ => false) (fun _ => false) []
      ⟨false, ["uploads", "u1", "missing.jpg"]⟩ []).2.2 (by decide) (by decide)⟩

/-- C2: evaluation against the mapped columns. With a receipt path resolving
strictly inside the caller's namespace, an existing file and a first commit
attempt that succeeds, confirm does persist exactly one row per payload item
with the caller's id and server-assigned identity and timestamps, and
returns rows echoing the input path — but the `Expense` table model declares
no `receipt_path` column, so the rows actually committed carry no
receipt_path (the migration-added column stays NULL): "each persisted record
has receipt_path equal to the input path" is false of the program. -/
theorem confirm_receipt_path_not_persisted (cwd : List String) (uid : String)
    (now today : Nat) (fe : List String → Bool) (cf : Nat → Bool)
    (db : List Expense) (p : PyPath) (items : List ReceiptConfirmItem)
    (huser : inParents (cwd ++ ["uploads", uid]) (resolvePath cwd p) = true)
    (hex : fe (resolvePath cwd p) = true)
    (hc0 : cf 0 = false) :
    confirmReceipt cwd uid now today fe cf db p items =
      (.ok (pathAsPosix p, items.enum.map fun pr =>
          mkConfirmExpense uid now today (pathAsPosix p) pr.1 pr.2),
        db ++ ((items.enum.map fun pr =>
          mkConfirmExpense uid now today (pathAsPosix p) pr.1 pr.2).map persistRow),
        []) ∧
    ((items.enum.map fun pr =>
      mkConfirmExpense uid now today (pathAsPosix p) pr.1 pr.2).map persistRow).length
        = items.length ∧
    (∀ e ∈ items.enum.map fun pr =>
        mkConfirmExpense uid now today (pathAsPosix p) pr.1 pr.2,
      e.receipt_path = some (pathAsPosix p) ∧ e.user_id = uid ∧
        e.created_at = now ∧ e.updated_at = now) ∧
    ∀ e ∈ (items.enum.map fun pr =>
        mkConfirmExpense uid now today (pathAsPosix p) pr.1 pr.2).map persistRow,
      e.receipt_path = none ∧ e.user_id = uid ∧
        e.created_at = now ∧ e.updated_at = now := by
  have hroot : inParents (cwd ++ ["uploads"]) (resolvePath cwd p) = true := by
    apply inParents_of_append (cwd ++ ["uploads"]) uid
    have hassoc : (cwd ++ ["uploads"]) ++ [uid] = cwd ++ ["uploads", uid] := by simp
    rw [hassoc]
    exact huser
  refine ⟨?_, by simp [List.enum_length], ?_, ?_⟩
  · simp only [confirmReceipt, hroot, huser, hex, Bool.not_true, Bool.false_and,
      Bool.false_eq_true, if_false, Bool.not_false]
    rw [foldl_sessionAdd]
    simp [commitRetry, commitRetryAux, sessionCommit, hc0]
  · intro e he
    rw [List.mem_map] at he
    obtain ⟨pr, -, rfl⟩ := he
    exact ⟨rfl, rfl, rfl, rfl⟩
  · intro e he
    rw [List.map_map, List.mem_map] at he
    obtain ⟨pr, -, rfl⟩ := he
    exact ⟨rfl, rfl, rfl, rfl⟩

/-- C2 witness: confirming two items against an existing namespaced file with
a clean first commit commits exactly two rows, both with a NULL
receipt_path, while the response echoes the path. -/
theorem confirm_receipt_path_not_persisted_witness :
    inParents ([] ++ ["uploads", "u1"])
      (resolvePath [] ⟨false, ["uploads", "u1", "r.jpg"]⟩) = true ∧
    (confirmReceipt [] "u1" 7 20260101 (fun l => l == ["uploads", "u1", "r.jpg"])
        (fun _ => false) [] ⟨false, ["uploads", "u1", "r.jpg"]⟩
        [⟨mkRat 5 1, "CAD", "Coffee", "FOOD", none⟩,
         ⟨mkRat 275 100, "CAD", "Bus", "TRANSPORT", none⟩]).2.1.length = 2 ∧
    (∀ e ∈ (confirmReceipt [] "u1" 7 20260101 (fun l => l == ["uploads", "u1", "r.jpg"])
        (fun _ => false) [] ⟨false, ["uploads", "u1", "r.jpg"]⟩
        [⟨mkRat 5 1, "CAD", "Coffee", "FOOD", none⟩,
         ⟨mkRat 275 100, "CAD", "Bus", "TRANSPORT", none⟩]).2.1,
      e.receipt_path = none) ∧
    ∀ pr ∈ [("uploads/u1/r.jpg" : String)],
      (mkConfirmExpense "u1" 7 20260101 pr 0
        ⟨mkRat 5 1, "CAD", "Coffee", "FOOD", none⟩).receipt_path = some pr := by
  have h := confirm_receipt_path_not_persisted [] "u1" 7 20260101
    (fun l => l == ["uploads", "u1", "r.jpg"]) (fun _ => false) []
    ⟨false, ["uploads", "u1", "r.jpg"]⟩
    [⟨mkRat 5 1, "CAD", "Coffee", "FOOD", none⟩,
     ⟨mkRat 275 100, "CAD", "Bus", "TRANSPORT", none⟩]
    (by decide) (by decide) rfl
  refine ⟨by decide, ?_, ?_, by decide⟩
  · rw [h.1]
    decide
  · rw [h.1]
    decide

/-- The confirm run of the C3 analysis: a valid path and a single payload
item, where only the first commit attempt hits transient contention. -/
def retryContentionRun : Except ConfirmError (String × List Expense) × List Expense × List Nat :=
  confirmReceipt [] "u1" 7 20260101 (fun l => l == ["uploads", "u1", "r.jpg"])
    (fun a => a == 0) [] ⟨false, ["uploads", "u1", "r.jpg"]⟩
    [⟨mkRat 5 1, "CAD", "Coffee", "FOOD", none⟩]

/-- The confirm run of the C3 analysis where every commit attempt hits
transient contention. -/
def retryExhaustedRun : Except ConfirmError (String × List Expense) × List Expense × List Nat :=
  confirmReceipt [] "u1" 7 20260101 (fun l => l == ["uploads", "u1", "r.jpg"])
    (fun _ => true) [] ⟨false, ["uploads", "u1", "r.jpg"]⟩
    [⟨mkRat 5 1, "CAD", "Coffee", "FOOD", none⟩]

/-- C3: evaluation at the failing input. When the first commit attempt raises
`OperationalError`, `session.rollback()` expunges the pending batch, so the
second attempt commits an empty session: the call sleeps once (0.25s),
returns a success response echoing one created row, yet zero rows are
persisted — the retry does not re-issue the batch. When every attempt fails,
the call does surface StorageBusy after backoffs of 0.25s and 0.5s with
nothing committed. -/
theorem confirm_retry_loses_batch :
    retryContentionRun.1 = .ok ("uploads/u1/r.jpg",
      [⟨0, "u1", mkRat 5 1, "CAD", "Coffee", "FOOD", 20260101,
        some "uploads/u1/r.jpg", 7, 7, none⟩]) ∧
    retryContentionRun.2.1 = [] ∧
    retryContentionRun.2.2 = [250] ∧
    retryExhaustedRun.1 = .error .storageBusy ∧
    retryExhaustedRun.2.1 = [] ∧
    retryExhaustedRun.2.2 = [250, 500] := by decide

/-- C4: `process_receipt` performs zero database writes and at most one file
write in every run; a disallowed content type, an empty upload, or an upload
exceeding 10 MiB is rejected before the artifact is written (no file
created). -/
theorem process_effect_bounds (uid : String) (now today : Nat) (tok ct : String)
    (len : Nat) (ocr : Except Unit String) (apiKey : Option String) (depsOk : Bool)
    (llm : List String → Option JValue) :
    (processReceipt uid now today tok ct len ocr apiKey depsOk llm).2.2 = 0 ∧
    (processReceipt uid now today tok ct len ocr apiKey depsOk llm).2.1.length ≤ 1 ∧
    ((pyLower ct == "image/jpeg" || pyLower ct == "image/png") = false →
      processReceipt uid now today tok ct len ocr apiKey depsOk llm =
        (.error .unsupportedType, [], 0)) ∧
    ((pyLower ct == "image/jpeg" || pyLower ct == "image/png") = true → len = 0 →
      processReceipt uid now today tok ct len ocr apiKey depsOk llm =
        (.error .emptyFile, [], 0)) ∧
    ((pyLower ct == "image/jpeg" || pyLower ct == "image/png") = true →
      MAX_UPLOAD_BYTES < len →
      processReceipt uid now today tok ct len ocr apiKey depsOk llm =
        (.error .tooLarge, [], 0)) := by
  have hbounds : (processReceipt uid now today tok ct len ocr apiKey depsOk llm).2.2 = 0 ∧
      (processReceipt uid now today tok ct len ocr apiKey depsOk llm).2.1.length ≤ 1 := by
    by_cases hct : (pyLower ct == "image/jpeg" || pyLower ct == "image/png") = true
    · by_cases h0 : min len (MAX_UPLOAD_BYTES + 1) = 0
      · simp [processReceipt, hct, h0]
      · by_cases hbig : MAX_UPLOAD_BYTES < min len (MAX_UPLOAD_BYTES + 1)
        · simp [processReceipt, hct, h0, hbig]
        · rcases ocr with e | text
          · simp [processReceipt, hct, h0, hbig]
          · rcases hp : parseReceiptLocally today text with e | items
            · simp [processReceipt, hct, h0, hbig, hp]
            · rcases hc : (classifyCategories apiKey depsOk llm
                  (items.map fun i => i.description)).1 with e | m
              · simp [processReceipt, hct, h0, hbig, hp, hc]
              · simp [processReceipt, hct, h0, hbig, hp, hc]
    · rw [Bool.not_eq_true] at hct
      simp [processReceipt, hct]
  refine ⟨hbounds.1, hbounds.2, ?_, ?_, ?_⟩
  · intro hct
    simp [processReceipt, hct]
  · intro hct h0
    subst h0
    simp [processReceipt, hct]
  · intro hct hbig
    have hmin : min len (MAX_UPLOAD_BYTES + 1) = MAX_UPLOAD_BYTES + 1 :=
      min_eq_right (by omega)
    simp [processReceipt, hct, hmin]

/-- C4 witness: a PDF upload is rejected with no file written; an upload one
byte over the 10 MiB limit is rejected with no file written. -/
theorem process_effect_bounds_witness :
    (pyLower "application/pdf" == "image/jpeg" ||
      pyLower "application/pdf" == "image/png") = false ∧
    processReceipt "u1" 7 0 "tok" "application/pdf" 5 (.ok "") none true
      (fun _ => none) = (.error .unsupportedType, [], 0) ∧
    MAX_UPLOAD_BYTES < 10485761 ∧
    processReceipt "u1" 7 0 "tok" "image/PNG" 10485761 (.ok "") none true
      (fun _ => none) = (.error .tooLarge, [], 0) :=
  ⟨by decide,
   (process_effect_bounds "u1" 7 0 "tok" "application/pdf" 5 (.ok "") none true
      (fun _ => none)).2.2.1 (by decide),
   by decide,
   (process_effect_bounds "u1" 7 0 "tok" "image/PNG" 10485761 (.ok "") none true
      (fun _ => none)).2.2.2.2 (by decide) (by decide)⟩

/-- C7 counterexample: with one extracted candidate item and no configured
API key (classification unavailable), `process_receipt` fails with
ServiceUnavailable instead of defaulting the item's category to OTHER and
returning the preview. -/
theorem process_classify_unavailable_fails :
    parseReceiptLocally 20260101 "2 Coffee 4 50" =
      .ok [⟨mkRat 450 100, "CAD", "Coffee", "OTHER", none⟩] ∧
    (processReceipt "u1" 7 20260101 "tok" "image/jpeg" 5 (.ok "2 Coffee 4 50")
        none true (fun _ => none)).1 = .error (.classifyFailed .missingApiKey) := by decide

/-- C7 amended: when classification is unavailable, `process` fails with
ServiceUnavailable (HTTP 503) rather than defaulting and returning the
preview: a missing API key fails every run that reaches classification, and
missing model dependencies fail every run with at least one extracted item;
the OTHER default applies only to descriptions left unmapped by a successful
classification call. -/
theorem process_classify_unavailable_amended (uid : String) (now today : Nat)
    (tok ct : String) (len : Nat) (text : String) (items : List ReceiptExpenseItem)
    (k : String) (depsOk : Bool) (llm : List String → Option JValue)
    (hct : (pyLower ct == "image/jpeg" || pyLower ct == "image/png") = true)
    (hpos : 0 < len) (hmax : len ≤ MAX_UPLOAD_BYTES)
    (hparse : parseReceiptLocally today text = .ok items) :
    (processReceipt uid now today tok ct len (.ok text) none depsOk llm).1 =
      .error (.classifyFailed .missingApiKey) ∧
    (items ≠ [] →
      (processReceipt uid now today tok ct len (.ok text) (some k) false llm).1 =
        .error (.classifyFailed .depsMissing)) := by
  have hmin : min len (MAX_UPLOAD_BYTES + 1) = len := min_eq_left (by omega)
  have h0 : ¬ min len (MAX_UPLOAD_BYTES + 1) = 0 := by omega
  have hbig : ¬ MAX_UPLOAD_BYTES < min len (MAX_UPLOAD_BYTES + 1) := by omega
  constructor
  · simp [processReceipt, hct, h0, hbig, hparse, classifyCategories]
  · intro hitems
    have hdesc : ¬ (items.map fun i => i.description) = [] := by
      simp [List.map_eq_nil_iff, hitems]
    simp [processReceipt, hct, h0, hbig, hparse, classifyCategories, hdesc]

/-- C7 witness: with the API key configured but the langchain dependencies
missing, a run that extracts one item fails with ServiceUnavailable. -/
theorem process_classify_unavailable_witness :
    (pyLower "image/jpeg" == "image/jpeg" || pyLower "image/jpeg" == "image/png") = true ∧
    (0 : Nat) < 5 ∧ (5 : Nat) ≤ MAX_UPLOAD_BYTES ∧
    parseReceiptLocally 20260101 "1 Tea 2.00" =
      .ok [⟨mkRat 200 100, "CAD", "Tea", "OTHER", none⟩] ∧
    (processReceipt "u1" 7 20260101 "tok" "image/jpeg" 5 (.ok "1 Tea 2.00")
        (some "key") false (fun _ => none)).1 = .error (.classifyFailed .depsMissing) := by
  refine ⟨by decide, by decide, by decide, by decide, ?_⟩
  exact (process_classify_unavailable_amended "u1" 7 20260101 "tok" "image/jpeg" 5
    "1 Tea 2.00" [⟨mkRat 200 100, "CAD", "Tea", "OTHER", none⟩] "key" false
    (fun _ => none) (by decide) (by decide) (by decide) (by decide)).2 (by decide)

end Receipts
